import Mathlib

/-!
Verification of the review-aggregation and cache-invalidation subsystem of
the b2c storefront.  The definitions below are a shallow embedding of
`src/server/src/routes/reviews.public.ts`,
`src/server/src/controllers/reviewController.ts`,
`src/src/services/reviewsService.ts` and the Product schema
(`src/models/Product.ts`).  JavaScript numbers appearing in averages are
modelled as exact rationals; timestamps are natural numbers (seconds on the
server, milliseconds on the client, matching the units each module uses).
-/

namespace B2C

/-- Moderation status of a review (`pending` / `approved` / `rejected`). -/
inductive RStatus
  | pending
  | approved
  | rejected
deriving DecidableEq, Repr

/-- A review document.  Fields not used by the aggregation subsystem
(`productName`, `userId`, `userName`, `userEmail`, `verified`, timestamps)
are omitted; they are never read by the code under verification. -/
structure Review where
  rid : String
  productId : String
  rating : Int
  comment : String
  title : String
  status : RStatus
  helpful : Nat
deriving DecidableEq, Repr

/-- The rating-relevant fields of a Product document, from the schema in
`src/models/Product.ts`: `rating`, `reviews`, `averageRating`,
`ratingsCount`.  The field `reviewsCount` is not declared in the schema but
is the path targeted by both aggregators' `$set`; it is kept here so the
updates can be stated exactly as written. -/
structure Product where
  pid : String
  name : String
  rating : ℚ
  reviews : Nat
  reviewsCount : Nat
  averageRating : ℚ
  ratingsCount : Nat
deriving DecidableEq, Repr

/-- Per-rating counts, the `distribution` object of
`reviewController.getReviewSummary` (keys "1".."5"). -/
structure Distribution where
  d1 : Nat
  d2 : Nat
  d3 : Nat
  d4 : Nat
  d5 : Nat
deriving DecidableEq, Repr

/-- A summary payload as serialized by the various endpoints.  JavaScript
object literals carry different field sets at different sites, so optional
fields model presence/absence: `none` means the field is absent from the
JSON object.
  * routes `GET /reviews/summary`: `{avg, total, averageRating, reviewCount}`
  * controller `getReviewSummary`: `{distribution, total, avg}`
  * routes bulk entries: `{avg, total, averageRating, reviewCount}`
  * controller bulk entries: `{avg, total}` -/
structure SummaryPayload where
  avg : ℚ
  total : Nat
  averageRating : Option ℚ
  reviewCount : Option Nat
  distribution : Option Distribution
deriving DecidableEq, Repr

/-- The client-side summary shape (`reviewsService.ReviewSummary`). -/
structure ClientSummary where
  averageRating : ℚ
  reviewCount : Nat
deriving DecidableEq, Repr

/-- A server-side NodeCache store: entries `(key, value, expires)`.
Both modules instantiate `new NodeCache({stdTTL: 60, checkperiod: 120})`. -/
abbrev ServerCache := List (String × SummaryPayload × Nat)

/-- The client cache `summaryCache : Map<string, {value, expires}>`. -/
abbrev ClientCache := List (String × ClientSummary × Nat)

/-- Combined mutable state: the review and product collections plus the two
module-level caches.  `reviews.public.ts` and `reviewController.ts` each
declare their own `reviewCache` NodeCache instance, so the state carries two
independent stores. -/
structure St where
  reviewsDb : List Review
  productsDb : List Product
  routesCache : ServerCache
  ctrlCache : ServerCache
deriving DecidableEq, Repr

/-- Hexadecimal character test, for ObjectId well-formedness. -/
def isHexChar (c : Char) : Bool :=
  c.isDigit || ('a' ≤ c && c ≤ 'f') || ('A' ≤ c && c ≤ 'F')

/-- Model of `mongoose.isValidObjectId` / express-validator `isMongoId` on
strings: a 24-character hexadecimal string.  (Mongoose additionally accepts
12-byte buffers, which cannot arrive as route parameters.) -/
def isValidObjectId (s : String) : Bool :=
  s.length == 24 && s.data.all isHexChar

/-- JavaScript string whitespace test (the characters relevant here). -/
def isJsSpace (c : Char) : Bool :=
  c == ' ' || c == '\t' || c == '\n' || c == '\r' || c == '\x0b' || c == '\x0c'

/-- Model of JavaScript `String.prototype.trim`: strip whitespace from both
ends. -/
def jsTrim (s : String) : String :=
  ⟨((s.data.dropWhile isJsSpace).reverse.dropWhile isJsSpace).reverse⟩

/-- Model of JavaScript `String.prototype.slice(0, n)` on the strings used
here (title hygiene in `createReview`). -/
def jsSlice (s : String) (n : Nat) : String :=
  ⟨s.data.take n⟩

/-- `Math.round(q * 10) / 10`: round to one decimal.  JavaScript
`Math.round` rounds half toward positive infinity, which is exactly
Mathlib's `round`. -/
def roundTo1 (q : ℚ) : ℚ :=
  ((round (q * 10) : ℤ) : ℚ) / 10

/-- The reviews matched by `{productId: pid, status: "approved"}`. -/
def approvedFor (db : List Review) (pid : String) : List Review :=
  db.filter (fun r => r.productId == pid && r.status == .approved)

/-- Rating values of the approved reviews of a product. -/
def approvedRatings (db : List Review) (pid : String) : List Int :=
  (approvedFor db pid).map (·.rating)

/-- `count` produced by the `$group` stage (0 when no row is produced). -/
def aggCount (db : List Review) (pid : String) : Nat :=
  (approvedRatings db pid).length

/-- The single `$group` row `{count, avg}` of the per-product aggregation
pipeline, `none` when no review matches (then `const [agg] = ...` leaves
`agg` undefined). -/
def aggOpt (db : List Review) (pid : String) : Option (Nat × ℚ) :=
  let rs := approvedRatings db pid
  if rs.isEmpty then none
  else some (rs.length, (rs.map (fun r => (r : ℚ))).sum / (rs.length : ℚ))

/-- `const avg = agg?.avg ? Math.round(agg.avg * 10) / 10 : 0;` — the
truthiness test makes both `undefined` and an exact zero mean collapse
to 0 (`reviews.public.ts`, also the per-group expression of both bulk
endpoints). -/
def routesAvg (db : List Review) (pid : String) : ℚ :=
  match aggOpt db pid with
  | none => 0
  | some (_, m) => if m = 0 then 0 else roundTo1 m

/-- `const avg = agg[0]?.avg ?? 0;` followed by
`Math.round(avg * 10) / 10` (`reviewController.recalcProductRating`). -/
def ctrlAvg (db : List Review) (pid : String) : ℚ :=
  roundTo1 (match aggOpt db pid with
    | none => 0
    | some (_, m) => m)

/-- Modelled from the spec: "`mean` = arithmetic average of their rating
values rounded to 1 decimal (0 if `count == 0`)".  This definition follows
the spec's words and is compared against the code-side formulas. -/
def specRoundedMean (db : List Review) (pid : String) : ℚ :=
  let rs := approvedRatings db pid
  if rs.length = 0 then 0
  else roundTo1 ((rs.map (fun r => (r : ℚ))).sum / (rs.length : ℚ))

/-- `Product.findById` / the target of `findByIdAndUpdate`. -/
def findProduct (db : List Product) (pid : String) : Option Product :=
  db.find? (fun p => p.pid == pid)

/-- `Product.findByIdAndUpdate(pid, {$set: ...})`: apply `f` to the document
whose id matches (a no-op when the product does not exist). -/
def updateProduct (db : List Product) (pid : String) (f : Product → Product) :
    List Product :=
  db.map (fun p => if p.pid == pid then f p else p)

/-- NodeCache `get`: a value is served while its expiry lies in the future;
an expired or missing entry behaves as absent. -/
def cacheGet (now : Nat) (c : ServerCache) (k : String) : Option SummaryPayload :=
  match c.find? (fun e => e.1 == k) with
  | some (_, v, exp) => if now < exp then some v else none
  | none => none

/-- Insert-or-replace for JavaScript-object / Map-like association lists:
an existing key keeps its position, a new key is appended. -/
def recUpsert {α : Type} (l : List (String × α)) (k : String) (v : α) :
    List (String × α) :=
  if (l.find? (fun e => e.1 == k)).isSome then
    l.map (fun e => if e.1 == k then (k, v) else e)
  else l ++ [(k, v)]

/-- NodeCache `set` with the store's standard TTL (60 s): expiry is
`now + ttl`. -/
def cacheSet (now ttl : Nat) (c : ServerCache) (k : String) (v : SummaryPayload) :
    ServerCache :=
  recUpsert c k (v, now + ttl)

/-- NodeCache `del`: remove any entry for the key (no-op if absent). -/
def cacheDel (c : ServerCache) (k : String) : ServerCache :=
  c.filter (fun e => !(e.1 == k))

/-- Client `readCache` (`reviewsService.ts`): miss on absent key; an entry
with `Date.now() > hit.expires` is deleted and reported absent; otherwise
the value is returned.  The returned list is the possibly-evicted map. -/
def readCache (m : ClientCache) (key : String) (now : Nat) :
    Option ClientSummary × ClientCache :=
  match m.find? (fun e => e.1 == key) with
  | none => (none, m)
  | some (_, v, exp) =>
      if now > exp then (none, m.filter (fun e => !(e.1 == key)))
      else (some v, m)

/-- Client `writeCache`: store with `expires = Date.now() + ttl`. -/
def writeCache (m : ClientCache) (key : String) (v : ClientSummary)
    (now ttl : Nat) : ClientCache :=
  recUpsert m key (v, now + ttl)

/-- The client cache's default TTL, 30 000 ms. -/
def DEFAULT_TTL : Nat := 30000

/-- The server caches' standard TTL, 60 s. -/
def SERVER_TTL : Nat := 60

/-- Cache key used by both server modules: `review-summary:${productId}`. -/
def summaryKey (productId : String) : String :=
  "review-summary:" ++ productId

/-- `recomputeProductStats` (`reviews.public.ts` lines 22-40): aggregate
the approved reviews, `$set` all four field names on the product, and
delete this module's cache entry.  The function body has no `return`, so
the promise resolves with `undefined`, modelled as the `none` in the result
pair. -/
def recomputeProductStats (s : St) (productId : String) :
    St × Option (ℚ × Nat) :=
  let total := aggCount s.reviewsDb productId
  let avg := routesAvg s.reviewsDb productId
  let products := updateProduct s.productsDb productId (fun p =>
    { p with rating := avg, reviewsCount := total,
             averageRating := avg, ratingsCount := total })
  ({ s with productsDb := products,
            routesCache := cacheDel s.routesCache (summaryKey productId) },
   none)

/-- `recalcProductRating` (`reviewController.ts` lines 19-36): same
aggregation, but the update sets only `rating` and `reviewsCount`, and the
deletion hits the controller module's own cache.  No `return` either. -/
def recalcProductRating (s : St) (productId : String) :
    St × Option (ℚ × Nat) :=
  let count := aggCount s.reviewsDb productId
  let avg := ctrlAvg s.reviewsDb productId
  let products := updateProduct s.productsDb productId (fun p =>
    { p with rating := avg, reviewsCount := count })
  ({ s with productsDb := products,
            ctrlCache := cacheDel s.ctrlCache (summaryKey productId) },
   none)

/-- A review-creation request body plus the `:productId` route parameter.
`title` is optional in the API; absence is modelled by `""`, which passes
the same checks as an absent field. -/
structure CreateReq where
  productId : String
  rating : Int
  comment : String
  title : String
deriving DecidableEq, Repr

/-- An endpoint response carrying only an HTTP status (201/400/404/200). -/
structure BasicResp where
  status : Nat
  success : Bool
deriving DecidableEq, Repr

/-- The express-validator chain of `POST /products/:productId/reviews`
(`reviews.public.ts` lines 99-104): `isMongoId`, `isInt({min:1,max:5})`,
`isLength({min:5,max:4000})` on the raw comment, optional title
`isLength({max:120})`. -/
def routesCreateValid (req : CreateReq) : Bool :=
  isValidObjectId req.productId &&
  (1 ≤ req.rating && req.rating ≤ 5) &&
  (5 ≤ req.comment.length && req.comment.length ≤ 4000) &&
  req.title.length ≤ 120

/-- `POST /products/:productId/reviews` (`reviews.public.ts` lines
97-138).  `newId` stands for the ObjectId MongoDB generates for the new
document.  The source stores `undefined` instead of an empty trimmed
title; the model stores `""`, which no claim observes. -/
def createReviewRoutes (autoPublish : Bool) (newId : String) (s : St)
    (req : CreateReq) : St × BasicResp :=
  if !(routesCreateValid req) then (s, ⟨400, false⟩)
  else
    match findProduct s.productsDb req.productId with
    | none => (s, ⟨404, false⟩)
    | some _ =>
        let created : Review :=
          { rid := newId, productId := req.productId, rating := req.rating,
            comment := jsTrim req.comment, title := jsTrim req.title,
            status := if autoPublish then .approved else .pending,
            helpful := 0 }
        let s1 := { s with reviewsDb := s.reviewsDb ++ [created] }
        let s2 := if autoPublish then (recomputeProductStats s1 req.productId).1
                  else s1
        (s2, ⟨201, true⟩)

/-- The sequential validation of `reviewController.createReview` (lines
168-183): valid ObjectId, `!rating || rating < 1 || rating > 5`, then the
trimmed comment's length bounds. -/
def ctrlCreateValid (req : CreateReq) : Bool :=
  isValidObjectId req.productId &&
  !(req.rating == 0 || req.rating < 1 || req.rating > 5) &&
  !((jsTrim req.comment).length < 5) &&
  !((jsTrim req.comment).length > 4000)

/-- `POST /api/reviews` (`reviewController.createReview`, lines 162-211).
Unlike the routes variant it does not check that the product exists; the
title is trimmed and sliced to 120 characters. -/
def createReviewCtrl (autoApprove : Bool) (newId : String) (s : St)
    (req : CreateReq) : St × BasicResp :=
  if !(isValidObjectId req.productId) then (s, ⟨400, false⟩)
  else if req.rating == 0 || req.rating < 1 || req.rating > 5 then
    (s, ⟨400, false⟩)
  else
    let title := jsSlice (jsTrim req.title) 120
    let comment := jsTrim req.comment
    if comment.length < 5 then (s, ⟨400, false⟩)
    else if comment.length > 4000 then (s, ⟨400, false⟩)
    else
      let created : Review :=
        { rid := newId, productId := req.productId, rating := req.rating,
          comment := comment, title := title,
          status := if autoApprove then .approved else .pending,
          helpful := 0 }
      let s1 := { s with reviewsDb := s.reviewsDb ++ [created] }
      let s2 := if autoApprove then (recalcProductRating s1 req.productId).1
                else s1
      (s2, ⟨201, true⟩)

/-- `Review.findById` analogue. -/
def findReview (db : List Review) (rid : String) : Option Review :=
  db.find? (fun r => r.rid == rid)

/-- `Review.findByIdAndUpdate(id, ...)`: apply `f` to the matching
document. -/
def updateReview (db : List Review) (rid : String) (f : Review → Review) :
    List Review :=
  db.map (fun r => if r.rid == rid then f r else r)

/-- `PATCH /reviews/:id/approve` (`reviews.public.ts` lines 145-163): set
the review's status to approved and recompute via this module's
aggregator. -/
def approveReviewRoutes (s : St) (id : String) : St × BasicResp :=
  if !(isValidObjectId id) then (s, ⟨400, false⟩)
  else
    match findReview s.reviewsDb id with
    | none => (s, ⟨404, false⟩)
    | some doc =>
        let db := updateReview s.reviewsDb id
          (fun r => { r with status := .approved })
        let s1 := { s with reviewsDb := db }
        ((recomputeProductStats s1 doc.productId).1, ⟨200, true⟩)

/-- `PATCH /api/reviews/:id/status` (`reviewController.adminSetReviewStatus`,
lines 214-230): set the target status and recompute via the controller
module's aggregator. -/
def adminSetReviewStatus (s : St) (id : String) (status : RStatus) :
    St × BasicResp :=
  if !(isValidObjectId id) then (s, ⟨400, false⟩)
  else
    match findReview s.reviewsDb id with
    | none => (s, ⟨404, false⟩)
    | some doc =>
        let db := updateReview s.reviewsDb id
          (fun r => { r with status := status })
        let s1 := { s with reviewsDb := db }
        ((recalcProductRating s1 doc.productId).1, ⟨200, true⟩)

/-- `POST /reviews/:id/helpful` (`reviews.public.ts` lines 170-181):
`findByIdAndUpdate(id, {$inc: {helpful: 1}}, {upsert: false})` followed by
an unconditional `res.json({success: true})` — no existence check. -/
def markHelpfulRoute (s : St) (id : String) : St × BasicResp :=
  if !(isValidObjectId id) then (s, ⟨400, false⟩)
  else
    let db := updateReview s.reviewsDb id
      (fun r => { r with helpful := r.helpful + 1 })
    ({ s with reviewsDb := db }, ⟨200, true⟩)

/-- Response of the summary endpoints: `data` is absent (`none`) on the
validation-error path. -/
structure SummaryResp where
  status : Nat
  cached : Bool
  data : Option SummaryPayload
deriving DecidableEq, Repr

/-- `GET /reviews/summary` (`reviews.public.ts` lines 188-227): cache
lookup on `review-summary:${productId}`; on a miss, aggregate, `$set` all
four product fields, build `{avg, total, averageRating, reviewCount}`,
cache it with the standard TTL, and answer `cached: false`. -/
def summaryRoute (s : St) (productId : String) (now : Nat) :
    St × SummaryResp :=
  if !(isValidObjectId productId) then (s, ⟨400, false, none⟩)
  else
    let key := summaryKey productId
    match cacheGet now s.routesCache key with
    | some c => (s, ⟨200, true, some c⟩)
    | none =>
        let total := aggCount s.reviewsDb productId
        let avg := routesAvg s.reviewsDb productId
        let products := updateProduct s.productsDb productId (fun p =>
          { p with rating := avg, reviewsCount := total,
                   averageRating := avg, ratingsCount := total })
        let summary : SummaryPayload :=
          ⟨avg, total, some avg, some total, none⟩
        ({ s with productsDb := products,
                  routesCache := cacheSet now SERVER_TTL s.routesCache key summary },
         ⟨200, false, some summary⟩)

/-- Count of approved reviews of a product carrying a given rating value
(one bucket of the `$group: {_id: "$rating"}` stage). -/
def ratingBucket (db : List Review) (pid : String) (v : Int) : Nat :=
  ((approvedFor db pid).filter (fun r => r.rating == v)).length

/-- The distribution object of `reviewController.getReviewSummary`.  The
Review schema (not under `src/`; per the spec, "rating ∈ [1,5]") restricts
ratings to 1..5, so only those buckets exist. -/
def ctrlDistribution (db : List Review) (pid : String) : Distribution :=
  ⟨ratingBucket db pid 1, ratingBucket db pid 2, ratingBucket db pid 3,
   ratingBucket db pid 4, ratingBucket db pid 5⟩

/-- `GET /api/reviews/summary` (`reviewController.getReviewSummary`, lines
80-122): cache lookup in the controller module's cache; on a miss, build
the distribution, total and rounded average, respond
`{distribution, total, avg}` — no `averageRating`/`reviewCount` spellings —
and cache it.  The product document is not updated here. -/
def getReviewSummaryCtrl (s : St) (productId : String) (now : Nat) :
    St × SummaryResp :=
  if !(isValidObjectId productId) then (s, ⟨400, false, none⟩)
  else
    let key := summaryKey productId
    match cacheGet now s.ctrlCache key with
    | some c => (s, ⟨200, true, some c⟩)
    | none =>
        let d := ctrlDistribution s.reviewsDb productId
        let total := d.d1 + d.d2 + d.d3 + d.d4 + d.d5
        let avg : ℚ :=
          if total = 0 then 0
          else (1 * d.d1 + 2 * d.d2 + 3 * d.d3 + 4 * d.d4 + 5 * d.d5 : ℚ) / total
        let summary : SummaryPayload :=
          ⟨roundTo1 avg, total, none, none, some d⟩
        ({ s with ctrlCache := cacheSet now SERVER_TTL s.ctrlCache key summary },
         ⟨200, false, some summary⟩)

/-- Response of the bulk endpoints; `data` is the JavaScript object built
by assignment, modelled as an insertion-ordered association list. -/
structure BulkResp where
  status : Nat
  success : Bool
  data : List (String × SummaryPayload)
deriving DecidableEq, Repr

/-- Group stats `{count, avg}` over the reviews matched by the bulk `$in`
pipeline that belong to one product. -/
def bulkGroup (matching : List Review) (pid : String) : SummaryPayload :=
  let rs := (matching.filter (fun r => r.productId == pid)).map (·.rating)
  let cnt := rs.length
  let mean : ℚ := (rs.map (fun r => (r : ℚ))).sum / (rs.length : ℚ)
  let avg : ℚ := if mean = 0 then 0 else roundTo1 mean
  ⟨avg, cnt, some avg, some cnt, none⟩

/-- `POST /reviews/bulk-summary` (`reviews.public.ts` lines 232-261):
`slice(0, 300)`, keep the well-formed ids, one grouped aggregation, and an
object with one `{avg, total, averageRating, reviewCount}` entry per group
— products with no approved review produce no group and hence no entry.
MongoDB does not specify the order of `$group` output, so the group keys
are the deduplicated product ids of the matched reviews. -/
def bulkSummaryRoute (s : St) (productIds : List String) : BulkResp :=
  let capped := productIds.take 300
  let ids := capped.filter isValidObjectId
  if ids.isEmpty then ⟨200, true, []⟩
  else
    let matching := s.reviewsDb.filter
      (fun r => ids.contains r.productId && r.status == .approved)
    let pids := (matching.map (·.productId)).dedup
    ⟨200, true, pids.map (fun pid => (pid, bulkGroup matching pid))⟩

/-- Entry shape `{avg, total}` of the controller bulk endpoint. -/
def ctrlBulkGroup (matching : List Review) (pid : String) : SummaryPayload :=
  let g := bulkGroup matching pid
  ⟨g.avg, g.total, none, none, none⟩

/-- `POST /api/reviews/summary/bulk`
(`reviewController.getBulkReviewSummaries`, lines 125-159): rejects an
empty list with 400, but applies no cap — every well-formed id in the list
is fed to the aggregation. -/
def getBulkReviewSummariesCtrl (s : St) (productIds : List String) : BulkResp :=
  if productIds.isEmpty then ⟨400, false, []⟩
  else
    let ids := productIds.filter isValidObjectId
    if ids.isEmpty then ⟨200, true, []⟩
    else
      let matching := s.reviewsDb.filter
        (fun r => ids.contains r.productId && r.status == .approved)
      let pids := (matching.map (·.productId)).dedup
      ⟨200, true, pids.map (fun pid => (pid, ctrlBulkGroup matching pid))⟩

/-- Phase-1 step of `bulkSummary`: a cache hit goes into the result object,
a miss (or `forceRefresh`) is queued in `missing`. -/
def clientPartitionStep (cache : ClientCache) (now : Nat) (force : Bool)
    (acc : List (String × ClientSummary) × List String) (id : String) :
    List (String × ClientSummary) × List String :=
  if force then (acc.1, acc.2 ++ [id])
  else
    match (readCache cache id now).1 with
    | some c => (recUpsert acc.1 id c, acc.2)
    | none => (acc.1, acc.2 ++ [id])

/-- The per-id conversion of the server's bulk response:
`const m = map[id] || {}` followed by
`Number(m.averageRating ?? m.avg ?? 0)` / `Number(m.reviewCount ?? m.total ?? 0)`. -/
def serverLookupSummary (serverData : List (String × SummaryPayload))
    (id : String) : ClientSummary :=
  match serverData.find? (fun e => e.1 == id) with
  | some (_, v) => ⟨v.averageRating.getD v.avg, v.reviewCount.getD v.total⟩
  | none => ⟨0, 0⟩

/-- Phase-2 step: store the converted server entry in both the cache and
the result object. -/
def clientFetchStep (serverData : List (String × SummaryPayload))
    (now ttl : Nat) (acc : ClientCache × List (String × ClientSummary))
    (id : String) : ClientCache × List (String × ClientSummary) :=
  (writeCache acc.1 id (serverLookupSummary serverData id) now ttl,
   recUpsert acc.2 id (serverLookupSummary serverData id))

/-- Phase-3 step: `if (!result[id])` backfill `{averageRating:0, reviewCount:0}`. -/
def clientBackfillStep (now ttl : Nat)
    (acc : ClientCache × List (String × ClientSummary)) (id : String) :
    ClientCache × List (String × ClientSummary) :=
  match acc.2.find? (fun e => e.1 == id) with
  | some _ => acc
  | none => (writeCache acc.1 id ⟨0, 0⟩ now ttl, recUpsert acc.2 id ⟨0, 0⟩)

/-- `reviewsService.bulkSummary` (`reviewsService.ts` lines 198-244)
composed with the server route it posts to (`/reviews/bulk-summary`).
Phase 1 partitions ids into cache hits and misses against the cache as it
stands at entry (lazy evictions during this pass cannot change any read's
outcome, so the reads are modelled against the entry cache).  Phase 2 posts
the misses, converts each server entry, and caches every result.  Phase 3
backfills zeros for any id still missing from the result object. -/
def bulkSummaryClient (s : St) (cache : ClientCache) (now : Nat)
    (force : Bool) (ttl : Nat) (productIds : List String) :
    ClientCache × List (String × ClientSummary) :=
  let part := productIds.foldl (clientPartitionStep cache now force) ([], [])
  let result0 := part.1
  let missing := part.2
  let step2 :=
    if missing.isEmpty then (cache, result0)
    else
      let serverData := (bulkSummaryRoute s missing).data
      missing.foldl (clientFetchStep serverData now ttl) (cache, result0)
  productIds.foldl (clientBackfillStep now ttl) step2

/-- Repeated insert-or-replace of `(id, f id)` pairs — the result-object
shape produced by the phase-2 loop. -/
def upsertAll {α : Type _} (f : String → α) (l : List String)
    (r0 : List (String × α)) : List (String × α) :=
  l.foldl (fun r id => recUpsert r id (f id)) r0

/-! Concrete fixtures used by counterexamples and witnesses. -/

/-- A well-formed product id. -/
def pidA : String := "aaaaaaaaaaaaaaaaaaaaaaaa"

/-- A second well-formed product id. -/
def pidB : String := "bbbbbbbbbbbbbbbbbbbbbbbb"

/-- A well-formed review id. -/
def ridC : String := "cccccccccccccccccccccccc"

/-- Another well-formed review id. -/
def ridD : String := "dddddddddddddddddddddddd"

/-- A product in its schema-default state: all aggregate fields 0. -/
def freshProduct (pid name : String) : Product :=
  ⟨pid, name, 0, 0, 0, 0, 0⟩

/-- An approved 5-star review of product `pidA`. -/
def revApproved5 : Review :=
  ⟨ridC, pidA, 5, "great stuff", "", .approved, 0⟩

/-- A pending 1-star review of product `pidA`. -/
def revPending1 : Review :=
  ⟨ridD, pidA, 1, "not so great", "", .pending, 0⟩

/-- State with one product and one approved review. -/
def stOneReview : St :=
  ⟨[revApproved5], [freshProduct pidA "A"], [], []⟩

/-- State with one product and no reviews. -/
def stEmpty : St :=
  ⟨[], [freshProduct pidA "A"], [], []⟩

/-- State for the cache-coherence trace: one approved and one pending
review of `pidA`, empty caches. -/
def s0Trace : St :=
  ⟨[revApproved5, revPending1], [freshProduct pidA "A"], [], []⟩

/-- After a routes-module summary read at t=0 (populates the routes
cache). -/
def s1Trace : St := (summaryRoute s0Trace pidA 0).1

/-- After a controller-module moderation at t=5 approving the pending
review — this changes `pidA`'s approved-review set and busts only the
controller module's cache. -/
def s2Trace : St := (adminSetReviewStatus s1Trace ridD .approved).1

/-- A creation request with the given rating and comment (no title). -/
def reqGood (rating : Int) (comment : String) : CreateReq :=
  ⟨pidA, rating, comment, ""⟩

/-- An all-'a' string of the given length (for comment-length boundary
tests). -/
def longA (n : Nat) : String :=
  ⟨List.replicate n 'a'⟩

/-- One approved 5-star review of `pidB` (for the bulk-cap
counterexample). -/
def revB5 : Review :=
  ⟨ridC, pidB, 5, "great stuff", "", .approved, 0⟩

/-- State holding only `revB5`. -/
def stBulk : St :=
  ⟨[revB5], [], [], []⟩

/-- A bulk request of 301 well-formed ids whose 301st entry is `pidB`. -/
def bulkInput301 : List String :=
  List.replicate 300 pidA ++ [pidB]

/-- A concrete client summary value. -/
def cs50 : ClientSummary := ⟨(3 : ℚ), 7⟩

/-- The product document of `stOneReview` after `recomputeProductStats`. -/
def prodAfterRecompute : Product :=
  { pid := pidA, name := "A",
    rating := routesAvg stOneReview.reviewsDb pidA,
    reviews := 0,
    reviewsCount := aggCount stOneReview.reviewsDb pidA,
    averageRating := routesAvg stOneReview.reviewsDb pidA,
    ratingsCount := aggCount stOneReview.reviewsDb pidA }

/-! General lemmas about the association-list operations. -/

lemma map_eq_self_of {α : Type _} (l : List α) (f : α → α)
    (h : ∀ a ∈ l, f a = a) : l.map f = l := by
  induction l with
  | nil => rfl
  | cons a t ih =>
      simp only [List.map_cons, h a (List.mem_cons_self a t)]
      rw [ih (fun b hb => h b (List.mem_cons_of_mem a hb))]

lemma find?_map_update {α : Type _} (l : List (String × α)) (k : String) (v : α) :
    (l.map (fun e => if e.1 == k then (k, v) else e)).find? (fun e => e.1 == k)
      = if (l.find? (fun e => e.1 == k)).isSome then some (k, v) else none := by
  induction l with
  | nil => rfl
  | cons a t ih =>
      simp only [List.map_cons]
      by_cases ha : a.1 = k
      · have hb : (a.1 == k) = true := beq_iff_eq.mpr ha
        rw [if_pos hb]
        simp only [List.find?, hb]
        simp
      · have hb : (a.1 == k) = false := beq_eq_false_iff_ne.mpr ha
        rw [if_neg (by simp [hb])]
        simp only [List.find?, hb]
        exact ih

lemma find?_map_update_ne {α : Type _} (l : List (String × α)) (k k' : String)
    (v : α) (h : ¬ k' = k) :
    (l.map (fun e => if e.1 == k then (k, v) else e)).find? (fun e => e.1 == k')
      = l.find? (fun e => e.1 == k') := by
  induction l with
  | nil => rfl
  | cons a t ih =>
      simp only [List.map_cons]
      by_cases ha : a.1 = k
      · have hb : (a.1 == k) = true := beq_iff_eq.mpr ha
        have hk' : (k == k') = false :=
          beq_eq_false_iff_ne.mpr (fun hkk => h hkk.symm)
        have ha' : (a.1 == k') = false := by rw [ha]; exact hk'
        rw [if_pos hb]
        simp only [List.find?, hk', ha']
        exact ih
      · have hb : (a.1 == k) = false := beq_eq_false_iff_ne.mpr ha
        rw [if_neg (by simp [hb])]
        cases hak : (a.1 == k') with
        | true => simp only [List.find?, hak]
        | false =>
            simp only [List.find?, hak]
            exact ih

lemma find?_recUpsert_self {α : Type _} (l : List (String × α)) (k : String) (v : α) :
    (recUpsert l k v).find? (fun e => e.1 == k) = some (k, v) := by
  unfold recUpsert
  split
  · next h => rw [find?_map_update]; simp [h]
  · next h =>
      rw [List.find?_append]
      have hnone : l.find? (fun e => e.1 == k) = none := by
        cases hf : l.find? (fun e => e.1 == k) with
        | none => rfl
        | some x => rw [hf] at h; simp at h
      rw [hnone]
      simp only [List.find?, Option.or]
      simp

lemma find?_recUpsert_ne {α : Type _} (l : List (String × α)) (k k' : String)
    (v : α) (h : ¬ k' = k) :
    (recUpsert l k v).find? (fun e => e.1 == k')
      = l.find? (fun e => e.1 == k') := by
  unfold recUpsert
  split
  · next _ => exact find?_map_update_ne l k k' v h
  · next _ =>
      rw [List.find?_append]
      have hk' : (k == k') = false :=
        beq_eq_false_iff_ne.mpr (fun hkk : k = k' => h hkk.symm)
      have hlast : ([(k, v)].find? (fun e => e.1 == k')) = none := by
        simp only [List.find?, hk']
      rw [hlast]
      cases hf : l.find? (fun e => e.1 == k') <;> rfl

lemma cacheGet_cacheDel (now : Nat) (c : ServerCache) (k : String) :
    cacheGet now (cacheDel c k) k = none := by
  unfold cacheGet cacheDel
  have : (c.filter (fun e => !(e.1 == k))).find? (fun e => e.1 == k) = none := by
    rw [List.find?_eq_none]
    intro e he hk
    have := List.of_mem_filter he
    rw [hk] at this
    simp at this
  rw [this]

lemma findProduct_updateProduct (db : List Product) (pid : String)
    (f : Product → Product) (hf : ∀ p, (f p).pid = p.pid) :
    findProduct (updateProduct db pid f) pid = (findProduct db pid).map f := by
  unfold findProduct updateProduct
  induction db with
  | nil => rfl
  | cons p t ih =>
      simp only [List.map_cons]
      by_cases hp : p.pid = pid
      · have hb : (p.pid == pid) = true := beq_iff_eq.mpr hp
        have hb' : ((f p).pid == pid) = true := beq_iff_eq.mpr (by rw [hf]; exact hp)
        rw [if_pos hb]
        simp only [List.find?, hb, hb']
        rfl
      · have hb : (p.pid == pid) = false := beq_eq_false_iff_ne.mpr hp
        rw [if_neg (by simp [hb])]
        simp only [List.find?, hb]
        exact ih

/-! Lemmas relating the code-side average formulas to the spec-side
rounded mean. -/

lemma roundTo1_zero : roundTo1 0 = 0 := by
  unfold roundTo1
  norm_num

lemma routesAvg_eq_spec (db : List Review) (pid : String) :
    routesAvg db pid = specRoundedMean db pid := by
  unfold routesAvg aggOpt specRoundedMean
  by_cases h : (approvedRatings db pid).isEmpty
  · have hlen : (approvedRatings db pid).length = 0 := by
      simpa [List.isEmpty_iff_length_eq_zero] using h
    simp [h, hlen]
  · have hlen : ¬ (approvedRatings db pid).length = 0 := by
      simpa [List.isEmpty_iff_length_eq_zero] using h
    simp only [h, if_neg hlen, Bool.false_eq_true, if_false]
    by_cases hm :
        ((approvedRatings db pid).map (fun r => (r : ℚ))).sum
          / ((approvedRatings db pid).length : ℚ) = 0
    · rw [if_pos hm, hm, roundTo1_zero]
    · rw [if_neg hm]

lemma ctrlAvg_eq_spec (db : List Review) (pid : String) :
    ctrlAvg db pid = specRoundedMean db pid := by
  unfold ctrlAvg aggOpt specRoundedMean
  by_cases h : (approvedRatings db pid).isEmpty
  · have hlen : (approvedRatings db pid).length = 0 := by
      simpa [List.isEmpty_iff_length_eq_zero] using h
    simp [h, hlen, roundTo1_zero]
  · have hlen : ¬ (approvedRatings db pid).length = 0 := by
      simpa [List.isEmpty_iff_length_eq_zero] using h
    simp [h, hlen]

lemma recompute_productsDb (s : St) (pid : String) :
    (recomputeProductStats s pid).1.productsDb
      = updateProduct s.productsDb pid (fun p =>
          { p with rating := routesAvg s.reviewsDb pid,
                   reviewsCount := aggCount s.reviewsDb pid,
                   averageRating := routesAvg s.reviewsDb pid,
                   ratingsCount := aggCount s.reviewsDb pid }) := rfl

lemma recalc_productsDb (s : St) (pid : String) :
    (recalcProductRating s pid).1.productsDb
      = updateProduct s.productsDb pid (fun p =>
          { p with rating := ctrlAvg s.reviewsDb pid,
                   reviewsCount := aggCount s.reviewsDb pid }) := rfl

/-- Claim C1 (amended): the Aggregator writes the rounded-to-1-decimal mean
of the approved ratings (0 when there are none) and the approved-review
count onto the product's aggregate fields — `rating`/`averageRating` and
`reviewsCount`/`ratingsCount` for `recomputeProductStats`, `rating` and
`reviewsCount` for `recalcProductRating` — but neither function returns the
computed pair: both promises resolve with no value. -/
theorem claim1_recompute_writes_rounded_mean_and_count
    (s : St) (pid : String)
    (h : (findProduct s.productsDb pid).isSome = true) :
    (∃ p, findProduct (recomputeProductStats s pid).1.productsDb pid = some p ∧
      p.rating = specRoundedMean s.reviewsDb pid ∧
      p.averageRating = specRoundedMean s.reviewsDb pid ∧
      p.reviewsCount = aggCount s.reviewsDb pid ∧
      p.ratingsCount = aggCount s.reviewsDb pid) ∧
    (recomputeProductStats s pid).2 = none ∧
    (∃ q, findProduct (recalcProductRating s pid).1.productsDb pid = some q ∧
      q.rating = specRoundedMean s.reviewsDb pid ∧
      q.reviewsCount = aggCount s.reviewsDb pid) ∧
    (recalcProductRating s pid).2 = none := by
  obtain ⟨p0, hp0⟩ := Option.isSome_iff_exists.mp h
  have h1 : findProduct (recomputeProductStats s pid).1.productsDb pid
      = some { p0 with rating := routesAvg s.reviewsDb pid, reviewsCount := aggCount s.reviewsDb pid, averageRating := routesAvg s.reviewsDb pid, ratingsCount := aggCount s.reviewsDb pid } := by
    rw [recompute_productsDb,
      findProduct_updateProduct s.productsDb pid (fun p => { p with rating := routesAvg s.reviewsDb pid, reviewsCount := aggCount s.reviewsDb pid, averageRating := routesAvg s.reviewsDb pid, ratingsCount := aggCount s.reviewsDb pid }) (fun p => rfl), hp0]
    rfl
  have h2 : findProduct (recalcProductRating s pid).1.productsDb pid
      = some { p0 with rating := ctrlAvg s.reviewsDb pid, reviewsCount := aggCount s.reviewsDb pid } := by
    rw [recalc_productsDb,
      findProduct_updateProduct s.productsDb pid (fun p => { p with rating := ctrlAvg s.reviewsDb pid, reviewsCount := aggCount s.reviewsDb pid }) (fun p => rfl), hp0]
    rfl
  exact ⟨⟨_, h1, routesAvg_eq_spec s.reviewsDb pid,
      routesAvg_eq_spec s.reviewsDb pid, rfl, rfl⟩, rfl,
    ⟨_, h2, ctrlAvg_eq_spec s.reviewsDb pid, rfl⟩, rfl⟩

/-- Witness for C1: the amended theorem applied to a concrete state with
one approved review. -/
theorem claim1_witness :
    (∃ p, findProduct (recomputeProductStats stOneReview pidA).1.productsDb pidA
        = some p ∧
      p.rating = specRoundedMean stOneReview.reviewsDb pidA ∧
      p.averageRating = specRoundedMean stOneReview.reviewsDb pidA ∧
      p.reviewsCount = aggCount stOneReview.reviewsDb pidA ∧
      p.ratingsCount = aggCount stOneReview.reviewsDb pidA) ∧
    (recomputeProductStats stOneReview pidA).2 = none ∧
    (∃ q, findProduct (recalcProductRating stOneReview pidA).1.productsDb pidA
        = some q ∧
      q.rating = specRoundedMean stOneReview.reviewsDb pidA ∧
      q.reviewsCount = aggCount stOneReview.reviewsDb pidA) ∧
    (recalcProductRating stOneReview pidA).2 = none :=
  claim1_recompute_writes_rounded_mean_and_count stOneReview pidA (by decide)

/-- Counterexample for C1 as stated: `recomputeProductStats` does not
return the (mean, count) pair — its promise resolves with `undefined`
(modelled `none`), even on a state with one approved 5-star review. -/
theorem claim1_counterexample :
    (recomputeProductStats stOneReview pidA).2 = none ∧
    ¬ ((recomputeProductStats stOneReview pidA).2
        = some (specRoundedMean stOneReview.reviewsDb pidA,
                aggCount stOneReview.reviewsDb pidA)) := by
  refine ⟨rfl, ?_⟩
  intro hcontra
  rw [show (recomputeProductStats stOneReview pidA).2 = none from rfl] at hcontra
  exact Option.noConfusion hcontra

/-- Claim C2 (amended): after a `recomputeProductStats` recomputation the
pair of field names it writes is internally consistent — `rating` equals
`averageRating` and `reviewsCount` equals `ratingsCount`.  The schema
field `reviews` is never written by either aggregator, and
`recalcProductRating` updates only `rating`/`reviewsCount`, so the
spec's `rating`/`reviews` vs `averageRating`/`ratingsCount` pairing does
not hold. -/
theorem claim2_recompute_pairs_consistent (s : St) (pid : String) :
    ∀ p, findProduct (recomputeProductStats s pid).1.productsDb pid = some p →
      p.rating = p.averageRating ∧ p.reviewsCount = p.ratingsCount := by
  intro p hp
  rw [recompute_productsDb,
    findProduct_updateProduct s.productsDb pid (fun p => { p with rating := routesAvg s.reviewsDb pid, reviewsCount := aggCount s.reviewsDb pid, averageRating := routesAvg s.reviewsDb pid, ratingsCount := aggCount s.reviewsDb pid }) (fun p => rfl)] at hp
  cases hfind : findProduct s.productsDb pid with
  | none => rw [hfind] at hp; exact Option.noConfusion hp
  | some q =>
      rw [hfind] at hp
      simp only [Option.map_some'] at hp
      injection hp with hq
      rw [← hq]
      exact ⟨rfl, rfl⟩

/-- Witness for C2: the amended consistency theorem at a concrete state
and the concrete post-recompute product. -/
theorem claim2_witness :
    prodAfterRecompute.rating = prodAfterRecompute.averageRating ∧
    prodAfterRecompute.reviewsCount = prodAfterRecompute.ratingsCount :=
  claim2_recompute_pairs_consistent stOneReview pidA prodAfterRecompute rfl

/-- Counterexample for C2 as stated: creating an auto-published 5-star
review through the routes module leaves the schema field `reviews` at 0
while `ratingsCount` becomes 1 — the claimed `reviews = ratingsCount`
consistency is violated. -/
theorem claim2_counterexample :
    ((findProduct ((createReviewRoutes true "r-new" stEmpty
        (reqGood 5 "great stuff")).1.productsDb) pidA).map
      (fun p => (p.reviews, p.ratingsCount))) = some (0, 1) ∧
    (0 : Nat) ≠ 1 := by
  exact ⟨by decide, by decide⟩

lemma summaryRoute_miss (s : St) (pid : String) (now : Nat)
    (hv : isValidObjectId pid = true)
    (hmiss : cacheGet now s.routesCache (summaryKey pid) = none) :
    (summaryRoute s pid now).2
      = ⟨200, false, some ⟨routesAvg s.reviewsDb pid, aggCount s.reviewsDb pid,
          some (routesAvg s.reviewsDb pid), some (aggCount s.reviewsDb pid),
          none⟩⟩ := by
  unfold summaryRoute
  rw [if_neg (by simp [hv])]
  simp only []
  rw [hmiss]

lemma ctrlSummary_miss (s : St) (pid : String) (now : Nat)
    (hv : isValidObjectId pid = true)
    (hmiss : cacheGet now s.ctrlCache (summaryKey pid) = none) :
    (getReviewSummaryCtrl s pid now).2.cached = false := by
  unfold getReviewSummaryCtrl
  rw [if_neg (by simp [hv])]
  simp only []
  rw [hmiss]

/-- Claim C3 (amended): a write that changes a product's approved-review
set synchronously deletes the Summary Cache entry of the module the write
went through: `recomputeProductStats` empties the routes-module cache slot
and `recalcProductRating` the controller-module slot, so the next summary
read served by the same module recomputes from the current review set
(`cached = false`, fresh aggregate).  A write through one module does not
invalidate the other module's cache. -/
theorem claim3_write_invalidates_same_module_cache
    (s : St) (pid : String) (now : Nat)
    (hv : isValidObjectId pid = true) :
    cacheGet now ((recomputeProductStats s pid).1.routesCache)
        (summaryKey pid) = none ∧
    cacheGet now ((recalcProductRating s pid).1.ctrlCache)
        (summaryKey pid) = none ∧
    (summaryRoute (recomputeProductStats s pid).1 pid now).2.cached = false ∧
    (summaryRoute (recomputeProductStats s pid).1 pid now).2.data
      = some ⟨routesAvg s.reviewsDb pid, aggCount s.reviewsDb pid,
          some (routesAvg s.reviewsDb pid), some (aggCount s.reviewsDb pid),
          none⟩ ∧
    (getReviewSummaryCtrl (recalcProductRating s pid).1 pid now).2.cached
      = false := by
  have h1 : cacheGet now ((recomputeProductStats s pid).1.routesCache)
      (summaryKey pid) = none := cacheGet_cacheDel now s.routesCache (summaryKey pid)
  have h2 : cacheGet now ((recalcProductRating s pid).1.ctrlCache)
      (summaryKey pid) = none := cacheGet_cacheDel now s.ctrlCache (summaryKey pid)
  have h3 := summaryRoute_miss (recomputeProductStats s pid).1 pid now hv h1
  have h5 := ctrlSummary_miss (recalcProductRating s pid).1 pid now hv h2
  refine ⟨h1, h2, ?_, ?_, h5⟩
  · rw [h3]
  · rw [h3]
    rfl

/-- Witness for C3: the amended invalidation theorem at a concrete state
and product id. -/
theorem claim3_witness :
    cacheGet 0 ((recomputeProductStats s0Trace pidA).1.routesCache)
        (summaryKey pidA) = none ∧
    cacheGet 0 ((recalcProductRating s0Trace pidA).1.ctrlCache)
        (summaryKey pidA) = none ∧
    (summaryRoute (recomputeProductStats s0Trace pidA).1 pidA 0).2.cached
      = false ∧
    (summaryRoute (recomputeProductStats s0Trace pidA).1 pidA 0).2.data
      = some ⟨routesAvg s0Trace.reviewsDb pidA, aggCount s0Trace.reviewsDb pidA,
          some (routesAvg s0Trace.reviewsDb pidA),
          some (aggCount s0Trace.reviewsDb pidA), none⟩ ∧
    (getReviewSummaryCtrl (recalcProductRating s0Trace pidA).1 pidA 0).2.cached
      = false :=
  claim3_write_invalidates_same_module_cache s0Trace pidA 0 (by decide)

/-- Counterexample for C3 as stated: in the two-module system a
routes-module summary read at t=0 caches the aggregate (1 approved review,
total 1); a controller-module moderation then approves a second review —
changing the approved set to 2 — but deletes only the controller cache; the
next routes-module summary read at t=10 still answers from cache
(`cached = true`) with the pre-write total 1, while the current
approved-review count is 2. -/
theorem claim3_counterexample :
    (summaryRoute s2Trace pidA 10).2.cached = true ∧
    ((summaryRoute s2Trace pidA 10).2.data.map (fun d => d.total)) = some 1 ∧
    aggCount s2Trace.reviewsDb pidA = 2 := by
  exact ⟨by decide, by decide, by decide⟩

/-- Claim C5 (amended): a client-cache entry written at `T` with TTL `ttl`
is returned by `readCache` at any `now ≤ T + ttl` and treated as absent at
any `now > T + ttl`; the boundary instant `T + ttl` itself is still served
(the code tests `Date.now() > hit.expires`), unlike the claim's
"at or after T+TTL" wording. -/
theorem claim5_ttl_boundary (m : ClientCache) (key : String)
    (v : ClientSummary) (T ttl now : Nat) :
    (now ≤ T + ttl →
      (readCache (writeCache m key v T ttl) key now).1 = some v) ∧
    (T + ttl < now →
      (readCache (writeCache m key v T ttl) key now).1 = none) := by
  have hfind : (writeCache m key v T ttl).find? (fun e => e.1 == key)
      = some (key, v, T + ttl) := find?_recUpsert_self m key (v, T + ttl)
  constructor
  · intro h
    unfold readCache
    rw [hfind]
    simp only []
    rw [if_neg (by omega)]
  · intro h
    unfold readCache
    rw [hfind]
    simp only []
    rw [if_pos (by omega)]

/-- Witness for C5: both branches of the TTL theorem at concrete times. -/
theorem claim5_witness :
    (readCache (writeCache [] "k" cs50 0 30000) "k" 100).1 = some cs50 ∧
    (readCache (writeCache [] "k" cs50 0 30000) "k" 40000).1 = none :=
  ⟨(claim5_ttl_boundary [] "k" cs50 0 30000 100).1 (by omega),
   (claim5_ttl_boundary [] "k" cs50 0 30000 40000).2 (by omega)⟩

/-- Counterexample for C5 as stated: a get at exactly `T + TTL`
(T=0, TTL=30000, get at 30000) still returns the cached value, though the
claim requires the entry to be treated as absent at or after `T + TTL`. -/
theorem claim5_counterexample :
    (0 : Nat) + 30000 ≤ 30000 ∧
    (readCache (writeCache [] "k" cs50 0 30000) "k" 30000).1 ≠ none := by
  exact ⟨by omega, by decide⟩

/-- Claim C7: a review-creation request that is answered with a validation
error (HTTP 400) mutates nothing — the state after the call is exactly the
state before, for both the routes handler and the controller handler; no
review is created and no aggregate recomputation runs. -/
theorem claim7_validation_failure_no_mutation
    (auto : Bool) (newId : String) (s : St) (req : CreateReq) :
    ((createReviewRoutes auto newId s req).2.status = 400 →
      (createReviewRoutes auto newId s req).1 = s) ∧
    ((createReviewCtrl auto newId s req).2.status = 400 →
      (createReviewCtrl auto newId s req).1 = s) := by
  constructor
  · intro h
    cases hE : createReviewRoutes auto newId s req with
    | mk st resp =>
        rw [hE] at h
        unfold createReviewRoutes at hE
        split at hE
        · injection hE with h1 h2
          exact h1.symm
        · split at hE
          · injection hE with h1 h2
            exact h1.symm
          · injection hE with h1 h2
            rw [← h2] at h
            simp at h
  · intro h
    cases hE : createReviewCtrl auto newId s req with
    | mk st resp =>
        rw [hE] at h
        unfold createReviewCtrl at hE
        split at hE
        · injection hE with h1 h2
          exact h1.symm
        · split at hE
          · injection hE with h1 h2
            exact h1.symm
          · simp only [] at hE
            split at hE
            · injection hE with h1 h2
              exact h1.symm
            · split at hE
              · injection hE with h1 h2
                exact h1.symm
              · injection hE with h1 h2
                rw [← h2] at h
                simp at h

/-- Witness for C7: a rating-0 request is rejected by both handlers and
leaves the concrete state untouched. -/
theorem claim7_witness :
    (createReviewRoutes false "r-new" stEmpty (reqGood 0 "great stuff")).1
      = stEmpty ∧
    (createReviewCtrl false "r-new" stEmpty (reqGood 0 "great stuff")).1
      = stEmpty :=
  ⟨(claim7_validation_failure_no_mutation false "r-new" stEmpty
      (reqGood 0 "great stuff")).1 (by decide),
   (claim7_validation_failure_no_mutation false "r-new" stEmpty
      (reqGood 0 "great stuff")).2 (by decide)⟩

/-- Claim C8 (amended): the routes-module summary endpoint returns the
mean and count under both spellings simultaneously (`avg`/`total` and
`averageRating`/`reviewCount`, equal values in one response); the
controller-module summary endpoint does not — it answers only
`{distribution, total, avg}`. -/
theorem claim8_route_summary_dual_spellings (s : St) (pid : String)
    (now : Nat) (hv : isValidObjectId pid = true)
    (hmiss : cacheGet now s.routesCache (summaryKey pid) = none) :
    ∃ d, (summaryRoute s pid now).2.data = some d ∧
      d.averageRating = some d.avg ∧
      d.reviewCount = some d.total ∧
      (summaryRoute s pid now).2.status = 200 := by
  have h := summaryRoute_miss s pid now hv hmiss
  refine ⟨⟨routesAvg s.reviewsDb pid, aggCount s.reviewsDb pid,
    some (routesAvg s.reviewsDb pid), some (aggCount s.reviewsDb pid), none⟩,
    ?_, rfl, rfl, ?_⟩
  · rw [h]
  · rw [h]

/-- Witness for C8: the dual-spelling theorem at a concrete state with an
empty cache. -/
theorem claim8_witness :
    ∃ d, (summaryRoute stOneReview pidA 0).2.data = some d ∧
      d.averageRating = some d.avg ∧
      d.reviewCount = some d.total ∧
      (summaryRoute stOneReview pidA 0).2.status = 200 :=
  claim8_route_summary_dual_spellings stOneReview pidA 0 (by decide) rfl

/-- Counterexample for C8 as stated: the controller summary endpoint
(`getReviewSummary`) responds without the `averageRating`/`reviewCount`
spellings (both fields absent), although the request succeeds. -/
theorem claim8_counterexample :
    ((getReviewSummaryCtrl stOneReview pidA 0).2.data.map
      (fun d => (d.averageRating, d.reviewCount))) = some (none, none) ∧
    (getReviewSummaryCtrl stOneReview pidA 0).2.status = 200 := by
  exact ⟨by decide, by decide⟩

/-- Claim C9 (amended): the routes bulk-summary endpoint depends only on
the first 300 ids of its input (ids beyond the cap are silently dropped)
and never rejects the request; the controller bulk endpoint
(`getBulkReviewSummaries`) applies no such cap. -/
theorem claim9_route_bulk_cap (s : St) (productIds : List String) :
    bulkSummaryRoute s productIds = bulkSummaryRoute s (productIds.take 300) ∧
    (bulkSummaryRoute s productIds).status = 200 ∧
    (bulkSummaryRoute s productIds).success = true := by
  refine ⟨?_, ?_, ?_⟩
  · unfold bulkSummaryRoute
    rw [List.take_take]
    simp
  · unfold bulkSummaryRoute
    simp only []
    split <;> rfl
  · unfold bulkSummaryRoute
    simp only []
    split <;> rfl

/-- Counterexample for C9 as stated: a controller bulk request of 301 ids
whose 301st id has an approved review returns a summary entry for that id
— identifiers beyond the first 300 are processed and their results
returned by this endpoint. -/
theorem claim9_counterexample :
    (¬ pidB ∈ (bulkInput301.take 300)) ∧ pidB ∈ bulkInput301 ∧
    ((getBulkReviewSummariesCtrl stBulk bulkInput301).data.find?
      (fun e => e.1 == pidB)).isSome = true ∧
    (getBulkReviewSummariesCtrl stBulk bulkInput301).status = 200 := by
  exact ⟨by decide, by decide, by decide, by decide⟩

/-- Claim C10: a helpful-vote on a well-formed review id that matches no
review still answers `{success: true}` (status 200, no NotFound) and
leaves the state — in particular the review collection — unchanged. -/
theorem claim10_helpful_missing_review_success (s : St) (id : String)
    (hv : isValidObjectId id = true)
    (habs : ∀ r ∈ s.reviewsDb, ¬ r.rid = id) :
    (markHelpfulRoute s id).1 = s ∧
    (markHelpfulRoute s id).2.status = 200 ∧
    (markHelpfulRoute s id).2.success = true := by
  have hmap : updateReview s.reviewsDb id
      (fun r => { r with helpful := r.helpful + 1 }) = s.reviewsDb := by
    unfold updateReview
    apply map_eq_self_of
    intro r hr
    rw [if_neg (by simp [beq_eq_false_iff_ne.mpr (habs r hr)])]
  unfold markHelpfulRoute
  rw [if_neg (by simp [hv])]
  simp only []
  rw [hmap]
  simp

lemma longA_length (n : Nat) : (longA n).length = n := by
  show (List.replicate n 'a').length = n
  exact List.length_replicate n 'a'

lemma dropWhile_replicate_a (n : Nat) :
    (List.replicate n 'a').dropWhile isJsSpace = List.replicate n 'a' := by
  cases n with
  | zero => rfl
  | succ m =>
      rw [List.replicate_succ, List.dropWhile_cons,
        show isJsSpace 'a' = false from rfl]
      simp

lemma jsTrim_longA (n : Nat) : jsTrim (longA n) = longA n := by
  unfold jsTrim
  rw [show (longA n).data = List.replicate n 'a' from rfl,
    dropWhile_replicate_a, List.reverse_replicate, dropWhile_replicate_a,
    List.reverse_replicate]
  rfl

lemma routesValid_longA (n : Nat) :
    routesCreateValid (reqGood 3 (longA n))
      = (decide (5 ≤ n) && decide (n ≤ 4000)) := by
  unfold routesCreateValid reqGood
  simp only []
  rw [show isValidObjectId pidA = true from by decide, longA_length,
    show ("" : String).length = 0 from rfl]
  simp

lemma createReviewRoutes_longA (n : Nat) :
    (createReviewRoutes false "r-new" stEmpty (reqGood 3 (longA n))).2.status
      = if 5 ≤ n ∧ n ≤ 4000 then 201 else 400 := by
  unfold createReviewRoutes
  rw [routesValid_longA]
  by_cases h : 5 ≤ n ∧ n ≤ 4000
  · rw [if_neg (by simp [h.1, h.2]), if_pos h]
    rw [show findProduct stEmpty.productsDb
        (reqGood 3 (longA n)).productId = some (freshProduct pidA "A")
      from rfl]
  · rw [if_pos (by simp only [Bool.not_eq_true', Bool.and_eq_false_iff,
      decide_eq_false_iff_not]; omega), if_neg h]

lemma createReviewCtrl_longA (n : Nat) :
    (createReviewCtrl false "r-new" stEmpty (reqGood 3 (longA n))).2.status
      = if 5 ≤ n ∧ n ≤ 4000 then 201 else 400 := by
  unfold createReviewCtrl reqGood
  simp only []
  have hvv : ¬(!(isValidObjectId pidA)) = true := by decide
  have hr : ¬(((3 : Int) == 0) || decide ((3 : Int) < 1)
      || decide ((3 : Int) > 5)) = true := by decide
  rw [if_neg hvv, if_neg hr]
  simp only [jsTrim_longA, longA_length]
  by_cases h5 : n < 5
  · have hno : ¬(5 ≤ n ∧ n ≤ 4000) := by omega
    rw [if_pos h5, if_neg hno]
  · rw [if_neg h5]
    by_cases h4 : n > 4000
    · have hno : ¬(5 ≤ n ∧ n ≤ 4000) := by omega
      rw [if_pos h4, if_neg hno]
    · have hok : 5 ≤ n ∧ n ≤ 4000 := by omega
      rw [if_neg h4, if_pos hok]

/-- Claim C6: review creation (both the routes handler and the controller
handler) rejects rating 0 and rating 6 with a 400 validation error and
accepts ratings 1 and 5; it rejects comments of length 4 and 4001 and
accepts comments of length 5 and 4000. -/
theorem claim6_validation_boundaries :
    (createReviewRoutes false "r-new" stEmpty (reqGood 0 "great stuff")).2.status = 400 ∧
    (createReviewRoutes false "r-new" stEmpty (reqGood 6 "great stuff")).2.status = 400 ∧
    (createReviewRoutes false "r-new" stEmpty (reqGood 1 "great stuff")).2.status = 201 ∧
    (createReviewRoutes false "r-new" stEmpty (reqGood 5 "great stuff")).2.status = 201 ∧
    (createReviewRoutes false "r-new" stEmpty (reqGood 3 (longA 4))).2.status = 400 ∧
    (createReviewRoutes false "r-new" stEmpty (reqGood 3 (longA 5))).2.status = 201 ∧
    (createReviewRoutes false "r-new" stEmpty (reqGood 3 (longA 4000))).2.status = 201 ∧
    (createReviewRoutes false "r-new" stEmpty (reqGood 3 (longA 4001))).2.status = 400 ∧
    (createReviewCtrl false "r-new" stEmpty (reqGood 0 "great stuff")).2.status = 400 ∧
    (createReviewCtrl false "r-new" stEmpty (reqGood 6 "great stuff")).2.status = 400 ∧
    (createReviewCtrl false "r-new" stEmpty (reqGood 1 "great stuff")).2.status = 201 ∧
    (createReviewCtrl false "r-new" stEmpty (reqGood 5 "great stuff")).2.status = 201 ∧
    (createReviewCtrl false "r-new" stEmpty (reqGood 3 (longA 4))).2.status = 400 ∧
    (createReviewCtrl false "r-new" stEmpty (reqGood 3 (longA 5))).2.status = 201 ∧
    (createReviewCtrl false "r-new" stEmpty (reqGood 3 (longA 4000))).2.status = 201 ∧
    (createReviewCtrl false "r-new" stEmpty (reqGood 3 (longA 4001))).2.status = 400 := by
  refine ⟨by decide, by decide, by decide, by decide, by decide, by decide,
    ?_, ?_, by decide, by decide, by decide, by decide, by decide, by decide,
    ?_, ?_⟩
  · rw [createReviewRoutes_longA 4000, if_pos (by omega)]
  · rw [createReviewRoutes_longA 4001, if_neg (by omega)]
  · rw [createReviewCtrl_longA 4000, if_pos (by omega)]
  · rw [createReviewCtrl_longA 4001, if_neg (by omega)]

/-- Witness for C10: a concrete state with one review and a valid,
non-matching id. -/
theorem claim10_witness :
    (markHelpfulRoute stOneReview pidB).1 = stOneReview ∧
    (markHelpfulRoute stOneReview pidB).2.status = 200 ∧
    (markHelpfulRoute stOneReview pidB).2.success = true :=
  claim10_helpful_missing_review_success stOneReview pidB (by decide)
    (by decide)

/-! Lemmas for the client bulk-summary totality claim. -/

lemma partition_empty_cache (now : Nat) (force : Bool) (l : List String)
    (init : List (String × ClientSummary) × List String) :
    l.foldl (clientPartitionStep [] now force) init = (init.1, init.2 ++ l) := by
  induction l generalizing init with
  | nil => simp
  | cons a t ih =>
      rw [List.foldl_cons]
      have hstep : clientPartitionStep [] now force init a
          = (init.1, init.2 ++ [a]) := by
        unfold clientPartitionStep
        cases force <;> rfl
      rw [hstep, ih]
      simp

lemma fetch_fold_snd (d : List (String × SummaryPayload)) (now ttl : Nat)
    (l : List String) (acc : ClientCache × List (String × ClientSummary)) :
    (l.foldl (clientFetchStep d now ttl) acc).2
      = upsertAll (serverLookupSummary d) l acc.2 := by
  induction l generalizing acc with
  | nil => rfl
  | cons a t ih =>
      rw [List.foldl_cons]
      unfold upsertAll
      rw [List.foldl_cons]
      exact ih _

lemma find?_upsertAll {α : Type _} (f : String → α) (l : List String)
    (r0 : List (String × α)) (k : String) :
    (upsertAll f l r0).find? (fun e => e.1 == k)
      = if k ∈ l then some (k, f k) else r0.find? (fun e => e.1 == k) := by
  induction l generalizing r0 with
  | nil => simp [upsertAll]
  | cons a t ih =>
      unfold upsertAll
      rw [List.foldl_cons]
      rw [show (t.foldl (fun r id => recUpsert r id (f id))
          (recUpsert r0 a (f a)))
        = upsertAll f t (recUpsert r0 a (f a)) from rfl]
      rw [ih]
      by_cases hkt : k ∈ t
      · rw [if_pos hkt, if_pos (List.mem_cons_of_mem a hkt)]
      · rw [if_neg hkt]
        by_cases hka : k = a
        · subst hka
          rw [find?_recUpsert_self, if_pos (List.mem_cons_self k t)]
        · rw [find?_recUpsert_ne r0 a k (f a) hka,
            if_neg (by simp [List.mem_cons, hka, hkt])]

lemma map_fst_update {α : Type _} (l : List (String × α)) (k : String)
    (v : α) :
    (l.map (fun e => if e.1 == k then (k, v) else e)).map Prod.fst
      = l.map Prod.fst := by
  induction l with
  | nil => rfl
  | cons a t ih =>
      simp only [List.map_cons]
      by_cases ha : a.1 = k
      · have hb : (a.1 == k) = true := beq_iff_eq.mpr ha
        rw [if_pos hb, ih, ha]
      · have hb : (a.1 == k) = false := beq_eq_false_iff_ne.mpr ha
        rw [if_neg (by simp [hb]), ih]

lemma keys_recUpsert {α : Type _} (l : List (String × α)) (k : String)
    (v : α) :
    (recUpsert l k v).map Prod.fst
      = if (l.find? (fun e => e.1 == k)).isSome then l.map Prod.fst
        else l.map Prod.fst ++ [k] := by
  unfold recUpsert
  split
  · next h => exact map_fst_update l k v
  · next h =>
      rw [List.map_append]
      rfl

lemma keys_nodup_recUpsert {α : Type _} (l : List (String × α)) (k : String)
    (v : α) (h : (l.map Prod.fst).Nodup) :
    ((recUpsert l k v).map Prod.fst).Nodup := by
  rw [keys_recUpsert]
  split
  · exact h
  · next hf =>
      have hnone : l.find? (fun e => e.1 == k) = none := by
        cases hx : l.find? (fun e => e.1 == k) with
        | none => rfl
        | some x => rw [hx] at hf; simp at hf
      have hknot : ¬ k ∈ l.map Prod.fst := by
        intro hk
        obtain ⟨e, he, hek⟩ := List.mem_map.mp hk
        have := List.find?_eq_none.mp hnone e he
        rw [hek] at this
        simp at this
      simp [List.nodup_append, h, hknot]

lemma keys_nodup_upsertAll {α : Type _} (f : String → α) (l : List String)
    (r0 : List (String × α)) (h : (r0.map Prod.fst).Nodup) :
    ((upsertAll f l r0).map Prod.fst).Nodup := by
  induction l generalizing r0 with
  | nil => exact h
  | cons a t ih =>
      unfold upsertAll
      rw [List.foldl_cons]
      exact ih _ (keys_nodup_recUpsert r0 a (f a) h)

lemma backfill_noop (now ttl : Nat) (l : List String)
    (acc : ClientCache × List (String × ClientSummary))
    (h : ∀ id ∈ l, (acc.2.find? (fun e => e.1 == id)).isSome = true) :
    l.foldl (clientBackfillStep now ttl) acc = acc := by
  induction l with
  | nil => rfl
  | cons a t ih =>
      rw [List.foldl_cons]
      have hstep : clientBackfillStep now ttl acc a = acc := by
        unfold clientBackfillStep
        obtain ⟨x, hx⟩ := Option.isSome_iff_exists.mp
          (h a (List.mem_cons_self a t))
        rw [hx]
      rw [hstep]
      exact ih (fun id hid => h id (List.mem_cons_of_mem a hid))

lemma bulkRoute_data_none (s : St) (l : List String) (id : String)
    (h : approvedRatings s.reviewsDb id = []) :
    ((bulkSummaryRoute s l).data.find? (fun e => e.1 == id)) = none := by
  have happ : approvedFor s.reviewsDb id = [] := by
    have := congrArg List.length h
    rw [approvedRatings, List.length_map] at this
    exact List.eq_nil_of_length_eq_zero this
  unfold bulkSummaryRoute
  simp only []
  split
  · rfl
  · rw [List.find?_eq_none]
    intro x hx hxid
    obtain ⟨pid, hpid, rfl⟩ := List.mem_map.mp hx
    have hpe : pid = id := by simpa using hxid
    subst hpe
    have hmem := List.mem_dedup.mp hpid
    obtain ⟨r, hr, hrpid⟩ := List.mem_map.mp hmem
    have hr' := List.mem_filter.mp hr
    have hst : (r.status == RStatus.approved) = true := by
      have h2 := hr'.2
      simp only [Bool.and_eq_true] at h2
      exact h2.2
    have hrin : r ∈ approvedFor s.reviewsDb pid :=
      List.mem_filter.mpr ⟨hr'.1, by
        rw [Bool.and_eq_true]
        exact ⟨beq_iff_eq.mpr hrpid, hst⟩⟩
    rw [happ] at hrin
    exact List.not_mem_nil r hrin

lemma serverLookupSummary_zero (s : St) (l : List String) (id : String)
    (h : approvedRatings s.reviewsDb id = []) :
    serverLookupSummary (bulkSummaryRoute s l).data id = ⟨0, 0⟩ := by
  unfold serverLookupSummary
  rw [bulkRoute_data_none s l id h]

/-- Claim C4: with an empty client cache, the composed bulk-summary
operation (client `bulkSummary` posting to the server bulk route) returns a
result object with pairwise-distinct keys, containing an entry exactly for
every requested id, and every requested id with no approved reviews maps to
`{averageRating: 0, reviewCount: 0}` rather than being omitted. -/
theorem claim4_bulk_totality (s : St) (now ttl : Nat) (force : Bool)
    (productIds : List String)
    (hvalid : ∀ id ∈ productIds, isValidObjectId id = true) :
    (((bulkSummaryClient s [] now force ttl productIds).2.map Prod.fst).Nodup) ∧
    (∀ id, ((bulkSummaryClient s [] now force ttl productIds).2.find?
        (fun e => e.1 == id)).isSome = true ↔ id ∈ productIds) ∧
    (∀ id ∈ productIds, approvedRatings s.reviewsDb id = [] →
      (bulkSummaryClient s [] now force ttl productIds).2.find?
        (fun e => e.1 == id) = some (id, ⟨0, 0⟩)) := by
  have hres : (bulkSummaryClient s [] now force ttl productIds).2
      = upsertAll (serverLookupSummary (bulkSummaryRoute s productIds).data)
          productIds [] := by
    unfold bulkSummaryClient
    simp only []
    rw [partition_empty_cache]
    simp only [List.nil_append]
    by_cases hE : productIds.isEmpty
    · have : productIds = [] := List.isEmpty_iff.mp hE
      subst this
      rfl
    · rw [if_neg hE]
      have hfill : ∀ id ∈ productIds,
          ((upsertAll (serverLookupSummary (bulkSummaryRoute s productIds).data)
            productIds []).find? (fun e => e.1 == id)).isSome = true := by
        intro id hid
        rw [find?_upsertAll, if_pos hid]
        rfl
      rw [backfill_noop now ttl productIds _ (by
        intro id hid
        rw [fetch_fold_snd]
        exact hfill id hid)]
      exact fetch_fold_snd _ now ttl productIds ([], [])
  rw [hres]
  refine ⟨keys_nodup_upsertAll _ productIds [] (by simp), ?_, ?_⟩
  · intro id
    rw [find?_upsertAll]
    by_cases hid : id ∈ productIds
    · simp [hid]
    · simp [hid]
  · intro id hid hzero
    rw [find?_upsertAll, if_pos hid,
      serverLookupSummary_zero s productIds id hzero]

/-- Witness for C4: the totality theorem at a concrete state (one approved
review of `pidA`) and the two-element request `[pidA, pidB]`, in which
`pidB` has no approved reviews. -/
theorem claim4_witness :
    (((bulkSummaryClient stOneReview [] 0 false 30000 [pidA, pidB]).2.map
        Prod.fst).Nodup) ∧
    (∀ id, ((bulkSummaryClient stOneReview [] 0 false 30000 [pidA, pidB]).2.find?
        (fun e => e.1 == id)).isSome = true ↔ id ∈ [pidA, pidB]) ∧
    (∀ id ∈ [pidA, pidB], approvedRatings stOneReview.reviewsDb id = [] →
      (bulkSummaryClient stOneReview [] 0 false 30000 [pidA, pidB]).2.find?
        (fun e => e.1 == id) = some (id, ⟨0, 0⟩)) :=
  claim4_bulk_totality stOneReview 0 30000 false [pidA, pidB] (by decide)

end B2C
